import Mathlib

/-!
Verification development for the NFT card action workflow of the wallet
frontend (src/src/components/NftCard.tsx, src/src/commands.ts).

The embedding is shallow: each React event handler becomes a pure Lean
function from the card's state and the backend's asynchronous result to
the next state together with the list of observable events it emits
(backend calls, console errors, refresh-callback invocations, thrown
errors).  The `useState` hooks of the card become fields of `CardState`.
-/

namespace Sage

/-- Opaque backend payload describing a not-yet-confirmed state change
(`TransactionSummary` from the bindings).  Only its identity matters here. -/
structure TransactionSummary where
  sid : Nat
deriving DecidableEq, Repr

/-- The slice of `NftRecord` (from the bindings) read by NftCard.tsx. -/
structure NftRecord where
  launcher_id : String
  name : Option String
  collection_name : Option String
  visible : Bool
  owner_did : Option String
  created_height : Option Nat
deriving DecidableEq, Repr

/-- The `walletState.sync.unit` object: the fee unit's decimal precision. -/
structure FeeUnit where
  decimals : Nat
deriving DecidableEq, Repr

/-- The slice of `walletState.sync` read by NftCard.tsx: spendable balance
(a decimal, handled through BigNumber in the source and embedded as a
rational), the fee unit and the burn address constant. -/
structure SyncState where
  balance : ℚ
  unit : FeeUnit
  burn_address : String
deriving DecidableEq, Repr

/-- The host wallet state (`useWalletState()`). -/
structure WalletState where
  sync : SyncState
deriving DecidableEq, Repr

/-- A call issued to the Command Client (the generated `commands` object).
One constructor per backend capability that NftCard.tsx invokes.  The
`kind` argument of `addNftUri` is carried as the string the form produced:
the source's `values.kind as NftUriKind` cast is a compile-time no-op. -/
inductive BackendCall where
  | updateNft (launcherId : String) (visible : Bool)
  | transferNfts (ids : List String) (address : String) (fee : String)
  | assignNftsToDid (ids : List String) (did : Option String) (fee : String)
  | addNftUri (id : String) (url : String) (kind : String) (fee : String)
deriving DecidableEq, Repr

/-- The discriminated outcome returned by every generated Command Client
operation: `result.status === 'ok'` carrying `result.data`, or
`result.status === 'error'` carrying `result.error`. -/
inductive CommandResult (α : Type) where
  | ok (data : α)
  | error (err : String)
deriving DecidableEq, Repr

/-- Observable side effects a handler can emit, in order. -/
inductive Event where
  | call (c : BackendCall)
  | consoleError (msg : String) (cause : String)
  | refresh
deriving DecidableEq, Repr

/-- The `useState` hooks of one `NftCard` instance: the five dialog-open
flags and the pending transaction summary held for the Confirmation Gate. -/
structure CardState where
  transferOpen : Bool
  assignOpen : Bool
  unassignOpen : Bool
  addUrlOpen : Bool
  burnOpen : Bool
  summary : Option TransactionSummary
deriving DecidableEq, Repr

/-- The initial state of a card: every dialog closed, no pending summary. -/
def initialCardState : CardState :=
  { transferOpen := false, assignOpen := false, unassignOpen := false
    addUrlOpen := false, burnOpen := false, summary := none }

/-! ## The submit handlers of NftCard.tsx

Each handler is split into the Command Client call it issues at submit
time and the continuation (`then`) applied to the asynchronous result. -/

/-- The call issued by `onTransferSubmit`. -/
def onTransferSubmitCall (nft : NftRecord) (address fee : String) : BackendCall :=
  .transferNfts [nft.launcher_id] address fee

/-- The continuation of `onTransferSubmit`: close the transfer dialog,
then either log the error or install the summary. -/
def onTransferSubmitThen (s : CardState) (result : CommandResult TransactionSummary) :
    CardState × List Event :=
  let s1 := { s with transferOpen := false }
  match result with
  | .error e => (s1, [Event.consoleError "Failed to transfer NFT" e])
  | .ok d => ({ s1 with summary := some d }, [])

/-- The call issued by `onAssignSubmit` (profile is a non-null string). -/
def onAssignSubmitCall (nft : NftRecord) (profile fee : String) : BackendCall :=
  .assignNftsToDid [nft.launcher_id] (some profile) fee

/-- The continuation of `onAssignSubmit`. -/
def onAssignSubmitThen (s : CardState) (result : CommandResult TransactionSummary) :
    CardState × List Event :=
  let s1 := { s with assignOpen := false }
  match result with
  | .error e => (s1, [Event.consoleError "Failed to assign NFT" e])
  | .ok d => ({ s1 with summary := some d }, [])

/-- The call issued by `onUnassignSubmit`: `assignNftsToDid` with a null
profile reference. -/
def onUnassignSubmitCall (nft : NftRecord) (fee : String) : BackendCall :=
  .assignNftsToDid [nft.launcher_id] none fee

/-- The continuation of `onUnassignSubmit`. -/
def onUnassignSubmitThen (s : CardState) (result : CommandResult TransactionSummary) :
    CardState × List Event :=
  let s1 := { s with unassignOpen := false }
  match result with
  | .error e => (s1, [Event.consoleError "Failed to unassign NFT" e])
  | .ok d => ({ s1 with summary := some d }, [])

/-- The call issued by `onAddUrlSubmit`. -/
def onAddUrlSubmitCall (nft : NftRecord) (url kind fee : String) : BackendCall :=
  .addNftUri nft.launcher_id url kind fee

/-- The continuation of `onAddUrlSubmit`. -/
def onAddUrlSubmitThen (s : CardState) (result : CommandResult TransactionSummary) :
    CardState × List Event :=
  let s1 := { s with addUrlOpen := false }
  match result with
  | .error e => (s1, [Event.consoleError "Failed to add NFT URL" e])
  | .ok d => ({ s1 with summary := some d }, [])

/-- The call issued by `onBurnSubmit`: a transfer to the host-supplied
burn address constant. -/
def onBurnSubmitCall (ws : WalletState) (nft : NftRecord) (fee : String) : BackendCall :=
  .transferNfts [nft.launcher_id] ws.sync.burn_address fee

/-- The continuation of `onBurnSubmit`. -/
def onBurnSubmitThen (s : CardState) (result : CommandResult TransactionSummary) :
    CardState × List Event :=
  let s1 := { s with burnOpen := false }
  match result with
  | .error e => (s1, [Event.consoleError "Failed to burn NFT" e])
  | .ok d => ({ s1 with summary := some d }, [])

/-- The call issued by `toggleVisibility`. -/
def toggleVisibilityCall (nft : NftRecord) : BackendCall :=
  .updateNft nft.launcher_id (!nft.visible)

/-- The continuation of `toggleVisibility`: on `ok` it invokes the
`updateNfts` refresh callback immediately; on `error` it throws
(`throw new Error(...)`), embedded as `Except.error`. -/
def toggleVisibilityThen (s : CardState) (result : CommandResult Unit) :
    Except String (CardState × List Event) :=
  match result with
  | .ok _ => .ok (s, [Event.refresh])
  | .error _ => .error "Failed to toggle visibility for NFT"

/-! ## Form validation

`addUrlFormSchema` is in NftCard.tsx.  The `amount(decimals)` field type
(from the missing module lib/formTypes) and the fee validation performed
by the other dialog components (TransferDialog, AssignNftDialog,
FeeOnlyDialog, all missing from src/) are modelled from the spec. -/

/-- Numeric value of a list of decimal digit characters. -/
def digitsVal (cs : List Char) : Nat :=
  cs.foldl (fun acc c => acc * 10 + (c.toNat - 48)) 0

/-- Modelled from the spec: the `amount(decimals)` form field type of
`lib/formTypes` (missing from src/).  Per §4.2 the fee "must parse as a
non-negative decimal amount in the wallet's configured unit": an optional
run of digits, optionally followed by a decimal point and at most
`decimals` fractional digits.  An empty integer part parses as 0,
matching the `amount || 0` fallback in the source's refine predicate. -/
def parseAmount (decimals : Nat) (s : String) : Option ℚ :=
  match s.toList.splitOn '.' with
  | [ip] =>
    if ip.all Char.isDigit then some (digitsVal ip : ℚ) else none
  | [ip, fp] =>
    if ip.all Char.isDigit && fp.all Char.isDigit
        && decide (0 < fp.length) && decide (fp.length ≤ decimals) then
      some ((digitsVal ip : ℚ) + (digitsVal fp : ℚ) / ((10 : ℚ) ^ fp.length))
    else none
  | _ => none

/-- The fee check of `addUrlFormSchema`: the field parses under
`amount(walletState.sync.unit.decimals)` and the refine predicate
`BigNumber(walletState.sync.balance).gte(amount || 0)` holds. -/
def feeValidates (ws : WalletState) (fee : String) : Bool :=
  match parseAmount ws.sync.unit.decimals fee with
  | some amt => decide (amt ≤ ws.sync.balance)
  | none => false

/-- `addUrlFormSchema` of NftCard.tsx: url non-empty, kind non-empty, fee
parses and is covered by the balance. -/
def addUrlFormValidate (ws : WalletState) (url kind fee : String) : Bool :=
  decide (1 ≤ url.length) && decide (1 ≤ kind.length) && feeValidates ws fee

/-- The add-URL submission pipeline: `handleSubmit(onAddUrlSubmit)` invokes
the handler, and hence issues the Command Client call, only when the zod
schema validated; otherwise no call is made. -/
def addUrlSubmission (ws : WalletState) (nft : NftRecord) (url kind fee : String) :
    Option BackendCall :=
  if addUrlFormValidate ws url kind fee then
    some (onAddUrlSubmitCall nft url kind fee)
  else none

/-- Modelled from the spec: `TransferDialog` (missing from src/).  Per
§4.2 validation is synchronous and requires the destination address
non-empty and the fee covered by the balance before `onSubmit` runs. -/
def transferDialogSubmission (ws : WalletState) (nft : NftRecord) (address fee : String) :
    Option BackendCall :=
  if decide (1 ≤ address.length) && feeValidates ws fee then
    some (onTransferSubmitCall nft address fee)
  else none

/-- Modelled from the spec: `AssignNftDialog` (missing from src/).  Per
§4.2 the profile reference must be non-empty and the fee covered by the
balance before `onSubmit` runs. -/
def assignDialogSubmission (ws : WalletState) (nft : NftRecord) (profile fee : String) :
    Option BackendCall :=
  if decide (1 ≤ profile.length) && feeValidates ws fee then
    some (onAssignSubmitCall nft profile fee)
  else none

/-- Modelled from the spec: `FeeOnlyDialog` (missing from src/), used for
unassign.  Per §4.2 the fee must be covered by the balance before
`onSubmit` runs. -/
def unassignDialogSubmission (ws : WalletState) (nft : NftRecord) (fee : String) :
    Option BackendCall :=
  if feeValidates ws fee then some (onUnassignSubmitCall nft fee) else none

/-- Modelled from the spec: `FeeOnlyDialog` (missing from src/), used for
burn.  Per §4.2 the fee must be covered by the balance before
`onSubmit` runs. -/
def burnDialogSubmission (ws : WalletState) (nft : NftRecord) (fee : String) :
    Option BackendCall :=
  if feeValidates ws fee then some (onBurnSubmitCall ws nft fee) else none

/-- The five mutating action kinds of the card. -/
inductive ActionKind where
  | transfer
  | assign
  | unassign
  | attachUri
  | burn
deriving DecidableEq, Repr

/-- Dispatcher over the five fee-taking action submissions: the Command
Client call issued for a submission, or `none` when validation rejects it
before any call. -/
def submitAction (ws : WalletState) (nft : NftRecord) (k : ActionKind)
    (address profile url kind fee : String) : Option BackendCall :=
  match k with
  | .transfer => transferDialogSubmission ws nft address fee
  | .assign => assignDialogSubmission ws nft profile fee
  | .unassign => unassignDialogSubmission ws nft fee
  | .attachUri => addUrlSubmission ws nft url kind fee
  | .burn => burnDialogSubmission ws nft fee

/-! ## The Confirmation Gate

NftCard.tsx wires `ConfirmationDialog` with `summary={summary}`,
`close={() => setSummary(null)}` and `onConfirm={() => updateNfts()}`. -/

/-- Modelled from the spec: the confirm action of `ConfirmationDialog`
(component source missing from src/).  Per §4.3, `confirm()` clears the
pending summary and invokes the refresh callback, and is a no-op if
nothing is pending; with the NftCard wiring, clearing is
`setSummary(null)` and refresh is `updateNfts()`. -/
def gateConfirm (s : CardState) : CardState × List Event :=
  match s.summary with
  | none => (s, [])
  | some _ => ({ s with summary := none }, [Event.refresh])

/-- Modelled from the spec: the dismiss action of `ConfirmationDialog`
(component source missing from src/).  Per §4.3, `dismiss()` clears the
pending summary without invoking refresh, and is a no-op if nothing is
pending; with the NftCard wiring, clearing is `setSummary(null)`. -/
def gateDismiss (s : CardState) : CardState × List Event :=
  match s.summary with
  | none => (s, [])
  | some _ => ({ s with summary := none }, [])

/-! ## The dropdown menu -/

/-- The dropdown menu entries of the card. -/
inductive MenuAction where
  | transfer
  | assignProfile
  | unassignProfile
  | addUrl
  | burn
  | toggleVis
deriving DecidableEq, Repr

/-- One rendered `DropdownMenuItem` with its `disabled` attribute. -/
structure MenuItem where
  action : MenuAction
  disabled : Bool
deriving DecidableEq, Repr

/-- JavaScript truthiness of `nft.created_height` (a nullable number):
null and 0 are falsy. -/
def jsTruthyHeight (h : Option Nat) : Bool :=
  match h with
  | none => false
  | some n => decide (n ≠ 0)

/-- The `disabled={!nft.created_height}` attribute shared by the five
mutating menu items. -/
def createdDisabled (nft : NftRecord) : Bool :=
  ! jsTruthyHeight nft.created_height

/-- The dropdown menu rendered by `NftCard`: transfer, assign, a
conditional unassign (only when `nft.owner_did !== null`), add-URL and
burn, each with `disabled={!nft.created_height}`, and toggle-visibility
with no disabled attribute. -/
def nftMenu (nft : NftRecord) : List MenuItem :=
  [⟨.transfer, createdDisabled nft⟩, ⟨.assignProfile, createdDisabled nft⟩]
    ++ (if nft.owner_did.isSome then [⟨.unassignProfile, createdDisabled nft⟩] else [])
    ++ [⟨.addUrl, createdDisabled nft⟩, ⟨.burn, createdDisabled nft⟩, ⟨.toggleVis, false⟩]

/-! ## The Command Client boundary

The native bridge (`invoke`) resolves with a payload, rejects with a
backend-reported error, or faults at the boundary itself. -/

/-- How one bridge invocation concludes, as seen from the frontend. -/
inductive BridgeOutcome (α : Type) where
  | resolved (a : α)
  | backendError (e : String)
  | boundaryFault (m : String)
deriving DecidableEq, Repr

/-- The raw-bridge call shape used by every operation in
src/src/commands.ts (shown there on `initialize`, `active_wallet`,
`login_wallet`, ...): `await invoke(name, args)` returns the resolved
payload and rethrows any rejection, whether the rejection carries a
backend-reported error or a boundary fault.  `Except.error` embeds the
thrown rejection. -/
def rawInvoke (α : Type) (r : BridgeOutcome α) : Except String α :=
  match r with
  | .resolved a => .ok a
  | .backendError e => .error e
  | .boundaryFault m => .error m

/-- The operation on line 4 of src/src/commands.ts (the camel-cased
wrapper of the bridge command named on that line), applied to a bridge
outcome: a bare `await invoke` with no outcome wrapping. -/
def initCommand (r : BridgeOutcome Unit) : Except String Unit :=
  rawInvoke Unit r

/-- Modelled from the spec: the generated Command Client bindings
(`commands` from the missing module bindings) that NftCard.tsx consumes.
Per §4.1 each operation wraps the bridge response into the discriminated
`Outcome` union: a resolved payload becomes `ok`, a backend-reported
failure becomes `error` (never thrown), and only a boundary/marshalling
fault is raised. -/
def bindingsInvoke (α : Type) (r : BridgeOutcome α) : Except String (CommandResult α) :=
  match r with
  | .resolved a => .ok (.ok a)
  | .backendError e => .ok (.error e)
  | .boundaryFault m => .error m

/-- Spec-side call shape (§6 table): one `assign-profile` call with a
nullable profile reference, where a null reference represents unassign.
Stated from the spec's words so the source's two handlers can be compared
against it. -/
def assignProfileCallSpec (ids : List String) (profile : Option String) (fee : String) :
    BackendCall :=
  .assignNftsToDid ids profile fee

/-- A concrete wallet state: balance 1, two fee decimals. -/
def sampleWallet : WalletState :=
  { sync := { balance := 1, unit := { decimals := 2 }, burn_address := "txch1burnaddr" } }

/-- A concrete NFT record that is not yet chain-confirmed. -/
def sampleNft : NftRecord :=
  { launcher_id := "nft1", name := some "Sample", collection_name := none,
    visible := true, owner_did := some "did1", created_height := none }

/-! ## Theorems -/

/-- C1 counterexample: with a summary already pending in the Confirmation
Gate, a later successful transfer submission is accepted and silently
replaces the pending summary, without any confirm or dismiss. -/
theorem pending_summary_silently_replaced :
    (onTransferSubmitThen { initialCardState with summary := some ⟨0⟩ }
        (CommandResult.ok ⟨1⟩)).1.summary = some ⟨1⟩
    ∧ ({ initialCardState with summary := some ⟨0⟩ } : CardState).summary = some ⟨0⟩
    ∧ (⟨1⟩ : TransactionSummary) ≠ ⟨0⟩ := by
  refine ⟨rfl, rfl, ?_⟩
  decide

/-- C1 (amended): a pending summary is cleared (set to empty) only by the
gate's explicit confirm or dismiss — error outcomes leave it unchanged —
but every successful submission unconditionally installs its new summary,
replacing any summary still pending. -/
theorem summary_clearing_and_replacement (s : CardState) (d : TransactionSummary)
    (e : String) :
    (onTransferSubmitThen s (.ok d)).1.summary = some d
    ∧ (onAssignSubmitThen s (.ok d)).1.summary = some d
    ∧ (onUnassignSubmitThen s (.ok d)).1.summary = some d
    ∧ (onAddUrlSubmitThen s (.ok d)).1.summary = some d
    ∧ (onBurnSubmitThen s (.ok d)).1.summary = some d
    ∧ (onTransferSubmitThen s (.error e)).1.summary = s.summary
    ∧ (onAssignSubmitThen s (.error e)).1.summary = s.summary
    ∧ (onUnassignSubmitThen s (.error e)).1.summary = s.summary
    ∧ (onAddUrlSubmitThen s (.error e)).1.summary = s.summary
    ∧ (onBurnSubmitThen s (.error e)).1.summary = s.summary
    ∧ (gateConfirm s).1.summary = none
    ∧ (gateDismiss s).1.summary = none := by
  obtain ⟨t, a, u, au, b, sum⟩ := s
  cases sum <;>
    exact ⟨rfl, rfl, rfl, rfl, rfl, rfl, rfl, rfl, rfl, rfl, rfl, rfl⟩

/-- C2: for every action kind, a submission whose fee parses to an amount
strictly greater than the known spendable balance is rejected by the
synchronous form validation: no Command Client call is issued. -/
theorem fee_gt_balance_rejected (ws : WalletState) (nft : NftRecord) (k : ActionKind)
    (address profile url kind fee : String) (amt : ℚ)
    (hparse : parseAmount ws.sync.unit.decimals fee = some amt)
    (hgt : ws.sync.balance < amt) :
    submitAction ws nft k address profile url kind fee = none := by
  have hfv : feeValidates ws fee = false := by
    unfold feeValidates
    rw [hparse]
    exact decide_eq_false (not_le.mpr hgt)
  cases k <;>
    simp [submitAction, transferDialogSubmission, assignDialogSubmission,
      unassignDialogSubmission, addUrlSubmission, burnDialogSubmission,
      addUrlFormValidate, hfv]

/-- Witness for C2 at a concrete input: balance 1, fee string "5" parsing
to 5 > 1, transfer submission yields no call. -/
theorem fee_gt_balance_rejected_witness :
    parseAmount sampleWallet.sync.unit.decimals "5" = some 5
    ∧ sampleWallet.sync.balance < 5
    ∧ submitAction sampleWallet sampleNft ActionKind.transfer
        "addr" "" "" "" "5" = none :=
  ⟨by decide, by decide,
    fee_gt_balance_rejected sampleWallet sampleNft ActionKind.transfer
      "addr" "" "" "" "5" 5 (by decide) (by decide)⟩

/-- C3: the refresh callback never fires upon the Success outcome itself —
no submit continuation emits it — and it fires exactly once per explicit
confirm of a pending summary; dismiss never emits it. -/
theorem refresh_fires_only_on_explicit_confirm (s : CardState)
    (r : CommandResult TransactionSummary) :
    Event.refresh ∉ (onTransferSubmitThen s r).2
    ∧ Event.refresh ∉ (onAssignSubmitThen s r).2
    ∧ Event.refresh ∉ (onUnassignSubmitThen s r).2
    ∧ Event.refresh ∉ (onAddUrlSubmitThen s r).2
    ∧ Event.refresh ∉ (onBurnSubmitThen s r).2
    ∧ (gateConfirm s).2 = (if s.summary.isSome then [Event.refresh] else [])
    ∧ (gateDismiss s).2 = [] := by
  obtain ⟨t, a, u, au, b, sum⟩ := s
  cases sum <;> cases r <;>
    simp [onTransferSubmitThen, onAssignSubmitThen, onUnassignSubmitThen,
      onAddUrlSubmitThen, onBurnSubmitThen, gateConfirm, gateDismiss]

/-- C4: dismissing the Confirmation Gate clears the pending summary to
empty and changes nothing else — the dialog flags are untouched and no
event is emitted (no refresh, no console error, no backend call). -/
theorem dismiss_clears_summary_and_nothing_else (s : CardState) :
    gateDismiss s = ({ s with summary := none }, ([] : List Event)) := by
  obtain ⟨t, a, u, au, b, sum⟩ := s
  cases sum <;> rfl

/-- C5: when the created marker is null, every rendered mutating menu item
(transfer, assign, unassign, add-URL, burn) is disabled, while the
toggle-visibility item is present and enabled. -/
theorem uncreated_nft_disables_mutating_actions (nft : NftRecord)
    (hnull : nft.created_height = none) :
    (∀ item ∈ nftMenu nft, item.action ≠ MenuAction.toggleVis → item.disabled = true)
    ∧ (⟨MenuAction.toggleVis, false⟩ : MenuItem) ∈ nftMenu nft := by
  have hd : createdDisabled nft = true := by
    simp [createdDisabled, jsTruthyHeight, hnull]
  constructor
  · intro item hmem hne
    unfold nftMenu at hmem
    cases hdid : nft.owner_did.isSome
    · rw [hdid] at hmem
      simp at hmem
      rcases hmem with rfl | rfl | rfl | rfl | rfl
      · exact hd
      · exact hd
      · exact hd
      · exact hd
      · exact absurd rfl hne
    · rw [hdid] at hmem
      simp at hmem
      rcases hmem with rfl | rfl | rfl | rfl | rfl | rfl
      · exact hd
      · exact hd
      · exact hd
      · exact hd
      · exact hd
      · exact absurd rfl hne
  · unfold nftMenu
    cases hdid : nft.owner_did.isSome <;> simp

/-- Witness for C5 at a concrete input: `sampleNft` has a null created
marker, its mutating menu items are disabled and toggle-visibility is
enabled. -/
theorem uncreated_nft_disables_witness :
    sampleNft.created_height = none
    ∧ ((∀ item ∈ nftMenu sampleNft,
          item.action ≠ MenuAction.toggleVis → item.disabled = true)
        ∧ (⟨MenuAction.toggleVis, false⟩ : MenuItem) ∈ nftMenu sampleNft) :=
  ⟨rfl, uncreated_nft_disables_mutating_actions sampleNft rfl⟩

/-- C6: the unassign handler issues exactly the assign-profile call with a
null profile reference — same command, identical arguments — while the
assign handler issues the same call shape with the reference filled. -/
theorem unassign_is_assign_with_null_profile (nft : NftRecord) (profile fee : String) :
    onUnassignSubmitCall nft fee = assignProfileCallSpec [nft.launcher_id] none fee
    ∧ onAssignSubmitCall nft profile fee
        = assignProfileCallSpec [nft.launcher_id] (some profile) fee :=
  ⟨rfl, rfl⟩

/-- C7: the burn handler issues the transfer call with the host-supplied
burn address as destination, and on success its summary is handed to the
Confirmation Gate exactly like a transfer's. -/
theorem burn_is_transfer_to_burn_address (ws : WalletState) (nft : NftRecord)
    (fee : String) (s : CardState) (d : TransactionSummary) :
    onBurnSubmitCall ws nft fee = onTransferSubmitCall nft ws.sync.burn_address fee
    ∧ (onBurnSubmitThen s (.ok d)).1.summary = some d
    ∧ (onTransferSubmitThen s (.ok d)).1.summary = some d :=
  ⟨rfl, rfl, rfl⟩

/-- C8: every mutating submit continuation closes its own dialog flag on
both outcomes, and on Failure reports the cause to the error channel
(console error) as its only event. -/
theorem surface_closes_on_every_outcome (s : CardState)
    (r : CommandResult TransactionSummary) (e : String) :
    (onTransferSubmitThen s r).1.transferOpen = false
    ∧ (onAssignSubmitThen s r).1.assignOpen = false
    ∧ (onUnassignSubmitThen s r).1.unassignOpen = false
    ∧ (onAddUrlSubmitThen s r).1.addUrlOpen = false
    ∧ (onBurnSubmitThen s r).1.burnOpen = false
    ∧ (onTransferSubmitThen s (.error e)).2
        = [Event.consoleError "Failed to transfer NFT" e]
    ∧ (onAssignSubmitThen s (.error e)).2
        = [Event.consoleError "Failed to assign NFT" e]
    ∧ (onUnassignSubmitThen s (.error e)).2
        = [Event.consoleError "Failed to unassign NFT" e]
    ∧ (onAddUrlSubmitThen s (.error e)).2
        = [Event.consoleError "Failed to add NFT URL" e]
    ∧ (onBurnSubmitThen s (.error e)).2
        = [Event.consoleError "Failed to burn NFT" e] := by
  cases r <;>
    exact ⟨rfl, rfl, rfl, rfl, rfl, rfl, rfl, rfl, rfl, rfl⟩

/-- C9 counterexample: the first operation of src/src/commands.ts, applied
to a backend-reported failure, raises (rethrows the rejection) instead of
returning a discriminated Outcome value. -/
theorem commands_ts_throws_on_backend_failure :
    initCommand (BridgeOutcome.backendError "insufficient funds")
      = Except.error "insufficient funds" :=
  rfl

/-- C9 (amended): the generated bindings consumed by the card return a
discriminated Outcome — backend-reported failures become the error
discriminant, never a raised fault, and only boundary faults raise —
while the raw operations of src/src/commands.ts propagate backend
failures as raised rejections. -/
theorem bindings_discriminate_outcomes_raw_commands_throw (α : Type) (a : α)
    (e m : String) :
    bindingsInvoke α (BridgeOutcome.resolved a) = Except.ok (CommandResult.ok a)
    ∧ bindingsInvoke α (BridgeOutcome.backendError e)
        = Except.ok (CommandResult.error e)
    ∧ bindingsInvoke α (BridgeOutcome.boundaryFault m) = Except.error m
    ∧ rawInvoke α (BridgeOutcome.backendError e) = Except.error e :=
  ⟨rfl, rfl, rfl, rfl⟩

/-- C10: toggle-visibility bypasses the Confirmation Gate: on ok it leaves
the card state (including any pending summary) untouched and fires the
refresh callback immediately, and on a backend-reported error it throws
an Error instead of emitting a console-error event. -/
theorem toggle_visibility_bypasses_gate (s : CardState) (e : String) :
    toggleVisibilityThen s (.ok ()) = Except.ok (s, [Event.refresh])
    ∧ toggleVisibilityThen s (.error e)
        = Except.error "Failed to toggle visibility for NFT" :=
  ⟨rfl, rfl⟩

end Sage
